import Mathlib

/-!
Formal model of `src/template_matcher.py` (class `OptimizedTemplateMatcher`).

Modelling conventions (shallow embedding):
* a Python `str` is a list of its code points (`Str := List Char`);
* Python float scores are rationals (`ℚ`); knife-edge float rounding is not
  modelled, no claim here depends on it;
* Python dicts (insertion ordered) are association lists, Python sets of
  strings are `Finset Str`;
* the third-party fuzzy scorer `rapidfuzz.fuzz.partial_ratio` (a 0..100
  similarity between two strings) is an explicit parameter `scorer` of the
  matching functions, and `rapidfuzz.process.extract` is modelled by `extract`
  below (score-descending stable selection of the top `limit` choices);
* filesystem interaction of `reload_templates` is modelled by passing the
  directory contents (`folder_exists`, the list of files with their parsed
  header and rows) as arguments; `datetime.now()` is an abstract tick `now`;
* all Python code in the class is wrapped in `try/except` handlers that the
  model renders as total functions: the realizable exception sites are both in
  `add_template` being handed out-of-type arguments, modelled by
  `add_template_checked`: a non-string question/answer raises at `.strip()`
  while the template dict is being built (before any mutation), and an
  unhashable non-string `category` (e.g. a list) raises `TypeError` at
  `self.categories.add(category)` — which runs after
  `self.templates.append(template)`, so that failure leaves a partial insert.
-/

abbrev Str := List Char

/-- Characters removed by Python `str.strip()` (the ASCII whitespace code
points: space, tab, newline, carriage return, vertical tab, form feed). -/
def isPySpace (c : Char) : Bool :=
  decide (c.toNat = 32 ∨ c.toNat = 9 ∨ c.toNat = 10 ∨ c.toNat = 13 ∨
    c.toNat = 11 ∨ c.toNat = 12)

/-- Python `str.strip()`. -/
def pyStrip (l : Str) : Str :=
  ((l.dropWhile isPySpace).reverse.dropWhile isPySpace).reverse

/-- Python `str.lower()` (ASCII case folding, as `Char.toLower`). -/
def pyLower (l : Str) : Str := l.map Char.toLower

/-- Python `str.split()` with no separator: split on whitespace runs,
dropping empty fields. -/
def pySplitWs (l : Str) : List Str :=
  (l.splitOnP isPySpace).filter (fun w => !w.isEmpty)

/-- Python `str.startswith(p)`. -/
def pyStartsWith (p l : Str) : Bool := l.take p.length == p

/-- Python `str.endswith(suf)`. -/
def pyEndsWith (suf l : Str) : Bool := l.drop (l.length - suf.length) == suf

/-- Python slice `l[:-n]` for `0 < n ≤ len l`. -/
def pyDropRight (n : Nat) (l : Str) : Str := l.take (l.length - n)

/-- Python `str.replace(a, b)` for single characters. -/
def pyReplaceChar (a b : Char) (l : Str) : Str := l.map (fun c => if c == a then b else c)

/-- `os.path.splitext(l)[0]`: drop the extension after the last dot.
(The dotfile special case of `splitext` is not modelled; no claim uses it.) -/
def pySplitextStem (l : Str) : Str :=
  if l.contains '.' then ((l.reverse.dropWhile (fun c => c != '.')).drop 1).reverse else l

/-- Python `str.title()`: an alphabetic character is uppercased when the
previous character is not alphabetic, lowercased otherwise. -/
def pyTitle (l : Str) : Str :=
  (l.foldl (fun (acc : Str × Bool) c =>
      if c.isAlpha then (acc.1 ++ [if acc.2 then c.toLower else c.toUpper], true)
      else (acc.1 ++ [c], false)) ([], false)).1

/-- One stored template (the dict built in `_load_csv_template` / `add_template`). -/
structure Template where
  id : Nat
  question : Str
  answer : Str
  category : Str
  priority : Int
  tags : List Str
  source_file : Str
  variations : List Str
deriving DecidableEq, Repr

/-- The mutable fields of `OptimizedTemplateMatcher`.  `question_cache` models
`_question_cache` (query → answer dict), `last_reload` models `_last_reload`
with an abstract clock value. -/
structure MatcherState where
  templates_folder : Str
  similarity_threshold : ℚ
  templates : List Template
  template_index : List (Str × List Template)
  categories : Finset Str
  question_cache : List (Str × Str)
  last_reload : Option Nat
deriving DecidableEq

/-- The fixed bilingual interrogative word list of `_generate_variations`. -/
def interrogatives : List Str :=
  ["apa".data, "bagaimana".data, "mengapa".data, "dimana".data, "kapan".data, "siapa".data,
   "what".data, "how".data, "why".data, "where".data, "when".data, "who".data]

/-- The fixed punctuation suffix list of `_generate_variations`. -/
def punct_suffixes : List Str := ["?".data, ".".data, "!".data]

/-- `_generate_variations`.  Python returns `list(set(variations))` whose
iteration order is unspecified; the model dedups keeping first occurrences —
every downstream use is order-insensitive (membership and per-template
dedup by id, see `_find_best_matches`). -/
def generate_variations (question : Str) : List Str :=
  let base := pyStrip (pyLower question)
  let withSuffixes :=
    punct_suffixes.filterMap (fun suf =>
      if pyEndsWith suf base then some (pyStrip (pyDropRight suf.length base)) else none)
  let withInterrogatives :=
    interrogatives.map (fun w =>
      if pyStartsWith w base then pyStrip (base.drop w.length) else w ++ ' ' :: base)
  (base :: (withSuffixes ++ withInterrogatives)).dedup

/-- Append `t` to the index bucket of `key`, creating the bucket at the end of
the (insertion-ordered) dict when absent. -/
def index_add (idx : List (Str × List Template)) (key : Str) (t : Template) :
    List (Str × List Template) :=
  if (idx.lookup key).isSome then
    idx.map (fun kv => if kv.1 == key then (kv.1, kv.2 ++ [t]) else kv)
  else idx ++ [(key, [t])]

/-- The per-template body of `_build_search_index`: insert every variation,
then every keyword of the question longer than 2 characters. -/
def index_add_full (idx : List (Str × List Template)) (t : Template) :
    List (Str × List Template) :=
  let idx := t.variations.foldl (fun i v => index_add i v t) idx
  (pySplitWs (pyLower t.question)).foldl
    (fun i k => if 2 < k.length then index_add i k t else i) idx

/-- `_build_search_index` (it resets `template_index` and rebuilds it from the
template list). -/
def build_search_index (templates : List Template) : List (Str × List Template) :=
  templates.foldl (fun idx t => index_add_full idx t) []

/-- One CSV data row as `pandas` hands it to the row loop, after `str(...)`
coercion of the cells.  `category`/`tags` are `none` when the column is absent
(then the defaults apply); `priority := some none` models a cell on which
`int(...)` raises, which skips the whole row via the row-level handler. -/
structure Row where
  question : Str
  answer : Str
  category : Option Str
  priority : Option (Option Int)
  tags : Option Str
deriving DecidableEq, Repr

/-- `os.path.splitext(filename)[0].replace('_', ' ').title()`. -/
def default_category (filename : Str) : Str :=
  pyTitle (pyReplaceChar '_' ' ' (pySplitextStem filename))

/-- The body of the row loop of `_load_csv_template` (lines 94–123): validate,
build the template dict, append it and record its category. -/
def process_row (filename : Str) (cat : Str) (s : MatcherState) (row : Row) : MatcherState :=
  let question := pyStrip row.question
  let answer := pyStrip row.answer
  if question.isEmpty || answer.isEmpty || question == "nan".data || answer == "nan".data then s
  else
    match row.priority.getD (some 1) with
    | none => s
    | some priority =>
      let template_category := pyStrip (row.category.getD cat)
      let tags : List Str :=
        match row.tags with
        | none => []
        | some ts =>
            ((pyStrip ts).splitOnP (fun c => c == ',')).filterMap
              (fun tag => let tg := pyStrip tag; if tg.isEmpty then none else some tg)
      let t : Template :=
        { id := s.templates.length, question := question, answer := answer,
          category := template_category, priority := priority, tags := tags,
          source_file := filename, variations := generate_variations question }
      { s with templates := s.templates ++ [t],
               categories := insert template_category s.categories }

/-- The whole row loop of `_load_csv_template` (the default category is
computed once from the file name). -/
def load_csv_rows (filename : Str) (rows : List Row) (s : MatcherState) : MatcherState :=
  rows.foldl (process_row filename (default_category filename)) s

/-- One CSV file as seen by `_load_csv_template`: `readable` is whether some
candidate encoding decodes it, `columns` is the raw header row. -/
structure CsvFile where
  filename : Str
  readable : Bool
  columns : List Str
  rows : List Row
deriving DecidableEq, Repr

/-- `_load_csv_template` at file granularity: unreadable files and files
missing a required column contribute nothing. -/
def load_csv_template (s : MatcherState) (file : CsvFile) : MatcherState :=
  if !file.readable then s
  else
    let cols := file.columns.map (fun c => pyLower (pyStrip c))
    if !(cols.contains ("question".data) && cols.contains ("answer".data)) then s
    else load_csv_rows file.filename file.rows s

/-- `reload_templates`: reset all four state components, then (when the folder
exists and holds CSV files) load every `.csv` file, rebuild the search index
and stamp `_last_reload`.  The early returns skip the stamp. -/
def reload_templates (s : MatcherState) (folder_exists : Bool) (files : List CsvFile)
    (now : Nat) : MatcherState :=
  let s := { s with templates := [], template_index := [],
                    categories := ∅, question_cache := [] }
  if !folder_exists then s
  else
    let csv_files := files.filter (fun f => pyEndsWith (".csv".data) f.filename)
    if csv_files.isEmpty then s
    else
      let s := csv_files.foldl load_csv_template s
      let s := { s with template_index := build_search_index s.templates }
      { s with last_reload := some now }

/-- One entry of the `cands` list of `_find_best_matches`. -/
structure Cand where
  template : Template
  score : ℚ
  method : Str
deriving DecidableEq, Repr

/-- The exact-variation stage: for every template (in order), for every of its
variations equal to the lowered query, emit a score-100 "exact" candidate. -/
def exact_cands (ts : List Template) (query_lower : Str) : List Cand :=
  ts.foldr
    (fun t acc =>
      (t.variations.filterMap (fun v =>
        if v == query_lower then some ⟨t, 100, "exact".data⟩ else none)) ++ acc) []

/-- Stable insertion used by `pySort`: `x` goes after every `y` with
`le y x` (so equal keys keep their original order, as Python's sort does). -/
def insertSorted (le : α → α → Bool) (x : α) : List α → List α
  | [] => [x]
  | y :: ys => if le y x then y :: insertSorted le x ys else x :: y :: ys

/-- Stable sort (ascending w.r.t. `le`), the model of Python `list.sort`;
a stable sort is unique, so insertion sort is extensionally Timsort. -/
def pySort (le : α → α → Bool) (l : List α) : List α :=
  l.foldl (fun acc x => insertSorted le x acc) []

/-- Comparator of `rapidfuzz.process.extract` result order: score descending,
ties kept in choice order. -/
def scoreDescLE (a b : Str × ℚ) : Bool := decide (b.2 ≤ a.2)

/-- `rapidfuzz.process.extract(query, choices, scorer=..., limit=...)`:
score every choice, order by score descending (stable), keep the top
`limit`.  The index component of the Python result is unused by the caller
(it looks templates up by question text), so it is omitted. -/
def extract (query : Str) (choices : List Str) (scorer : Str → Str → ℚ) (limit : Nat) :
    List (Str × ℚ) :=
  (pySort scoreDescLE (choices.map (fun c => (c, scorer query c)))).take limit

/-- The body of the fuzzy merge loop of `_find_best_matches` (lines 225–238):
below the threshold nothing happens; otherwise the first template with this
question text gets a "fuzzy" candidate, replacing an existing candidate of the
same template id only when the new score is strictly higher. -/
def fuzzy_step (s : MatcherState) (cands : List Cand) (fm : Str × ℚ) : List Cand :=
  if s.similarity_threshold ≤ fm.2 then
    match s.templates.find? (fun t => t.question == fm.1) with
    | none => cands
    | some t =>
      match cands.find? (fun m => m.template.id == t.id) with
      | some existing =>
        if existing.score < fm.2 then cands.erase existing ++ [⟨t, fm.2, "fuzzy".data⟩]
        else cands
      | none => cands ++ [⟨t, fm.2, "fuzzy".data⟩]
  else cands

/-- `(overlap / total) * 100`, the Jaccard-style keyword score. -/
def jaccard_score (query_words question_words : Finset Str) : ℚ :=
  (((query_words ∩ question_words).card : ℚ) / ((query_words ∪ question_words).card : ℚ)) * 100

/-- The body of the keyword loop of `_find_best_matches` (lines 241–257): a
"keyword" candidate is appended only when the template has no candidate yet —
an existing candidate is kept whatever the scores are. -/
def keyword_step (s : MatcherState) (query_words : Finset Str) (cands : List Cand)
    (t : Template) : List Cand :=
  let question_words := (pySplitWs (pyLower t.question)).toFinset
  let total := (query_words ∪ question_words).card
  if 0 < total then
    let kscore := jaccard_score query_words question_words
    if s.similarity_threshold * (7 / 10) ≤ kscore then
      if (cands.find? (fun m => m.template.id == t.id)).isSome then cands
      else cands ++ [⟨t, kscore, "keyword".data⟩]
    else cands
  else cands

/-- The sort key `lambda x: (-priority, -score)` as a comparator:
`a` may stay before `b` iff `(-pa, -sa) ≤ (-pb, -sb)` lexicographically. -/
def candLE (a b : Cand) : Bool :=
  decide (b.template.priority < a.template.priority ∨
    (a.template.priority = b.template.priority ∧ b.score ≤ a.score))

/-- `_find_best_matches(query, max_matches)`: the three strategies, the merge,
the `(priority desc, score desc)` sort and the truncation. -/
def find_best_matches (s : MatcherState) (query : Str) (max_matches : Nat)
    (scorer : Str → Str → ℚ) : List Cand :=
  let query_lower := pyLower query
  let m1 := exact_cands s.templates query_lower
  let fuzzy_matches :=
    extract query (s.templates.map (fun t => t.question)) scorer (max_matches * 2)
  let m2 := fuzzy_matches.foldl (fuzzy_step s) m1
  let query_words := (pySplitWs query_lower).toFinset
  let m3 := s.templates.foldl (keyword_step s query_words) m2
  (pySort candLE m3).take max_matches

/-- `match_template(query, max_matches)`: empty collection and empty (after
strip) queries resolve to `none`; then result-cache lookup keyed by the
lowered stripped query; then rank and return (and cache) the top answer. -/
def match_template (s : MatcherState) (query : Str) (max_matches : Nat)
    (scorer : Str → Str → ℚ) : MatcherState × Option Str :=
  if s.templates.isEmpty then (s, none)
  else
    let q := pyStrip query
    if q.isEmpty then (s, none)
    else
      let cache_key := pyLower q
      match s.question_cache.lookup cache_key with
      | some ans => (s, some ans)
      | none =>
        match find_best_matches s q max_matches scorer with
        | [] => (s, none)
        | best :: _ =>
          ({ s with question_cache := s.question_cache ++ [(cache_key, best.template.answer)] },
           some best.template.answer)

/-- `add_template(question, answer, category, priority)`: build the template
dict (note: the stored question/answer are stripped, the variations are
generated from the raw question, and no non-emptiness validation happens),
append it, record the category, and index its variations (only the
variations — unlike `_build_search_index`, no keyword entries). -/
def add_template (s : MatcherState) (question answer : Str) (category : Str)
    (priority : Int) : MatcherState × Bool :=
  let t : Template :=
    { id := s.templates.length, question := pyStrip question, answer := pyStrip answer,
      category := category, priority := priority, tags := [], source_file := "runtime".data,
      variations := generate_variations question }
  let s := { s with templates := s.templates ++ [t],
                    categories := insert category s.categories }
  let s := { s with template_index :=
                t.variations.foldl (fun idx v => index_add idx v t) s.template_index }
  (s, true)

/-- A value passed as `add_template`'s `category` argument: a Python string,
or an unhashable non-string object such as a list.  The matcher only ever
stores that object in the template dict (nothing modelled reads a template's
category afterwards — matching and ranking never touch it) and hands it to
`self.categories.add`, which raises `TypeError` when it is unhashable; the
model keeps a string placeholder for the stored dict slot. -/
inductive PyCat where
  | str (s : Str)
  | unhashable (placeholder : Str)
deriving DecidableEq, Repr

/-- `add_template` with its `try/except`, line by line:
* a non-string `question` or `answer` (modelled by `none`) raises at
  `.strip()` while the template dict is being built — before any field of the
  object is touched — so the handler returns `False` with the state untouched;
* with string question/answer the dict is built and appended to
  `self.templates`; an unhashable non-string `category` then raises
  `TypeError` at `self.categories.add(category)`, the handler catches it and
  returns `False` — with the appended template still in the collection and
  the category set, search index and result cache untouched (a partial
  insert);
* otherwise the remaining mutations run and `True` is returned
  (`add_template`). -/
def add_template_checked (s : MatcherState) (question answer : Option Str)
    (category : PyCat) (priority : Int) : MatcherState × Bool :=
  match question, answer with
  | some q, some a =>
    match category with
    | .str c => add_template s q a c priority
    | .unhashable r =>
      ({ s with templates := s.templates ++
          [{ id := s.templates.length, question := pyStrip q, answer := pyStrip a,
             category := r, priority := priority, tags := [],
             source_file := "runtime".data,
             variations := generate_variations q }] }, false)
  | _, _ => (s, false)

/-! ### Facts about the stable sort model -/

theorem mem_insertSorted (le : α → α → Bool) (x : α) (l : List α) (a : α) :
    a ∈ insertSorted le x l ↔ a = x ∨ a ∈ l := by
  induction l with
  | nil => simp [insertSorted]
  | cons y ys ih =>
    by_cases h : le y x = true
    · simp only [insertSorted, if_pos h, List.mem_cons, ih]
      tauto
    · simp only [insertSorted, if_neg h, List.mem_cons]
      try tauto

theorem mem_foldl_insertSorted (le : α → α → Bool) (l acc : List α) (a : α) :
    a ∈ l.foldl (fun acc x => insertSorted le x acc) acc ↔ a ∈ acc ∨ a ∈ l := by
  induction l generalizing acc with
  | nil => simp
  | cons x xs ih =>
    simp only [List.foldl_cons, ih, mem_insertSorted, List.mem_cons]
    tauto

theorem mem_pySort (le : α → α → Bool) (l : List α) (a : α) :
    a ∈ pySort le l ↔ a ∈ l := by
  simp [pySort, mem_foldl_insertSorted]

theorem insertSorted_pairwise (le : α → α → Bool)
    (htot : ∀ a b, le a b = true ∨ le b a = true)
    (htr : ∀ a b c, le a b = true → le b c = true → le a c = true)
    (x : α) (l : List α) (hl : l.Pairwise (fun a b => le a b = true)) :
    (insertSorted le x l).Pairwise (fun a b => le a b = true) := by
  induction l with
  | nil => simp [insertSorted]
  | cons y ys ih =>
    rcases List.pairwise_cons.1 hl with ⟨hy, hys⟩
    by_cases h : le y x = true
    · rw [insertSorted, if_pos h]
      refine List.pairwise_cons.2 ⟨?_, ih hys⟩
      intro a ha
      rcases (mem_insertSorted le x ys a).1 ha with rfl | ha
      · exact h
      · exact hy a ha
    · rw [insertSorted, if_neg h]
      refine List.pairwise_cons.2 ⟨?_, hl⟩
      intro a ha
      have hxy : le x y = true := (htot x y).resolve_right h
      rcases List.mem_cons.1 ha with rfl | ha
      · exact hxy
      · exact htr x y a hxy (hy a ha)

theorem pySort_pairwise (le : α → α → Bool)
    (htot : ∀ a b, le a b = true ∨ le b a = true)
    (htr : ∀ a b c, le a b = true → le b c = true → le a c = true)
    (l : List α) : (pySort le l).Pairwise (fun a b => le a b = true) := by
  suffices h : ∀ acc, acc.Pairwise (fun a b => le a b = true) →
      (l.foldl (fun acc x => insertSorted le x acc) acc).Pairwise
        (fun a b => le a b = true) by
    exact h [] (List.Pairwise.nil)
  induction l with
  | nil => intro acc hacc; exact hacc
  | cons x xs ih =>
    intro acc hacc
    exact ih _ (insertSorted_pairwise le htot htr x acc hacc)

theorem foldl_insertSorted_cons (le : α → α → Bool) (e : α) (l : List α)
    (h : ∀ x ∈ l, le e x = true) (acc : List α) :
    l.foldl (fun acc x => insertSorted le x acc) (e :: acc)
      = e :: l.foldl (fun acc x => insertSorted le x acc) acc := by
  induction l generalizing acc with
  | nil => rfl
  | cons x xs ih =>
    have hx : le e x = true := h x (by simp)
    show xs.foldl _ (insertSorted le x (e :: acc)) = e :: xs.foldl _ (insertSorted le x acc)
    rw [insertSorted, if_pos hx]
    exact ih (fun y hy => h y (by simp [hy])) _

theorem pySort_cons_of_le (le : α → α → Bool) (e : α) (l : List α)
    (h : ∀ x ∈ l, le e x = true) :
    pySort le (e :: l) = e :: pySort le l := by
  show l.foldl _ (insertSorted le e []) = _
  exact foldl_insertSorted_cons le e l h []

/-! ### Facts about the string primitives -/

theorem pyStrip_length_le (l : Str) : (pyStrip l).length ≤ l.length := by
  have h1 : (l.dropWhile isPySpace).length ≤ l.length :=
    (List.dropWhile_sublist isPySpace (l := l)).length_le
  have h2 : ((l.dropWhile isPySpace).reverse.dropWhile isPySpace).length
      ≤ (l.dropWhile isPySpace).length := by
    have := (List.dropWhile_sublist (l := (l.dropWhile isPySpace).reverse) isPySpace).length_le
    simpa using this
  simp only [pyStrip, List.length_reverse]
  omega

/-! ### Facts about the three strategy stages and the merge -/

theorem exact_cands_cons (t : Template) (ts : List Template) (ql : Str) :
    exact_cands (t :: ts) ql =
      (t.variations.filterMap (fun v =>
        if v == ql then some ⟨t, 100, "exact".data⟩ else none)) ++ exact_cands ts ql := rfl

theorem mem_exact_cands (ts : List Template) (ql : Str) (x : Cand)
    (hx : x ∈ exact_cands ts ql) : x.score = 100 ∧ x.template ∈ ts := by
  induction ts with
  | nil => cases hx
  | cons t ts ih =>
    rw [exact_cands_cons] at hx
    rcases List.mem_append.1 hx with hx | hx
    · rcases List.mem_filterMap.1 hx with ⟨v, _, hsome⟩
      by_cases hveq : (v == ql) = true
      · rw [if_pos hveq] at hsome
        cases hsome
        exact ⟨rfl, by simp⟩
      · rw [if_neg hveq] at hsome; cases hsome
    · rcases ih hx with ⟨h1, h2⟩
      exact ⟨h1, by simp [h2]⟩

theorem exact_cands_head (ts : List Template) (ql : Str) (t0 : Template)
    (h : ts.find? (fun t => t.variations.contains ql) = some t0) :
    ∃ rest, exact_cands ts ql = ⟨t0, 100, "exact".data⟩ :: rest := by
  induction ts with
  | nil => cases h
  | cons t ts ih =>
    by_cases hp : (t.variations.contains ql) = true
    · rw [List.find?_cons_of_pos (p := fun u : Template => u.variations.contains ql) _ hp] at h
      cases h
      have hql : ql ∈ t0.variations := by
        have := List.elem_iff.mp hp
        exact this
      have hmem : (⟨t0, 100, "exact".data⟩ : Cand) ∈
          t0.variations.filterMap (fun v =>
            if v == ql then some (⟨t0, 100, "exact".data⟩ : Cand) else none) :=
        List.mem_filterMap.2 ⟨ql, hql, by simp⟩
      obtain ⟨c, cs, hfm⟩ : ∃ c cs, t0.variations.filterMap (fun v =>
          if v == ql then some (⟨t0, 100, "exact".data⟩ : Cand) else none) = c :: cs := by
        cases hfm' : t0.variations.filterMap (fun v =>
            if v == ql then some (⟨t0, 100, "exact".data⟩ : Cand) else none) with
        | nil => rw [hfm'] at hmem; cases hmem
        | cons c cs => exact ⟨c, cs, rfl⟩
      have hc : c = (⟨t0, 100, "exact".data⟩ : Cand) := by
        have hcin : c ∈ t0.variations.filterMap (fun v =>
            if v == ql then some (⟨t0, 100, "exact".data⟩ : Cand) else none) := by
          rw [hfm]; simp
        rcases List.mem_filterMap.1 hcin with ⟨v, _, hsome⟩
        by_cases hveq : (v == ql) = true
        · rw [if_pos hveq] at hsome; cases hsome; rfl
        · rw [if_neg hveq] at hsome; cases hsome
      subst hc
      exact ⟨cs ++ exact_cands ts ql, by rw [exact_cands_cons, hfm]; rfl⟩
    · rw [List.find?_cons_of_neg (p := fun u : Template => u.variations.contains ql) _ hp] at h
      obtain ⟨rest, hrest⟩ := ih h
      have hnil : t.variations.filterMap (fun v =>
          if v == ql then some (⟨t, 100, "exact".data⟩ : Cand) else none) = [] := by
        rw [List.filterMap_eq_nil_iff]
        intro v hv
        by_cases hveq : (v == ql) = true
        · exfalso
          apply hp
          have : ql ∈ t.variations := by
            have := eq_of_beq hveq
            rwa [this] at hv
          exact List.elem_iff.mpr this
        · rw [if_neg hveq]
      exact ⟨rest, by rw [exact_cands_cons, hnil, List.nil_append, hrest]⟩

/-- A candidate produced against state `s` with a realizable (≤ 100) score. -/
def candGood (s : MatcherState) (x : Cand) : Prop :=
  x.template ∈ s.templates ∧ x.score ≤ 100

theorem fuzzy_step_append (s : MatcherState) (l₁ l₂ : List Cand) (fm : Str × ℚ)
    (h1 : ∀ x ∈ l₁, x.score = 100) (hfm : fm.2 ≤ 100) :
    ∃ l₂', fuzzy_step s (l₁ ++ l₂) fm = l₁ ++ l₂' := by
  unfold fuzzy_step
  by_cases hth : s.similarity_threshold ≤ fm.2
  case neg => exact ⟨l₂, by rw [if_neg hth]⟩
  rw [if_pos hth]
  cases hfind : s.templates.find? (fun t => t.question == fm.1) with
  | none => exact ⟨l₂, rfl⟩
  | some t =>
    dsimp only
    cases hex : (l₁ ++ l₂).find? (fun m => m.template.id == t.id) with
    | none =>
      dsimp only
      exact ⟨l₂ ++ [⟨t, fm.2, "fuzzy".data⟩], by rw [List.append_assoc]⟩
    | some existing =>
      dsimp only
      by_cases hrep : existing.score < fm.2
      · have hesc : existing.score < 100 := lt_of_lt_of_le hrep hfm
        have hnotin : existing ∉ l₁ := by
          intro hmem
          rw [h1 existing hmem] at hesc
          exact lt_irrefl _ hesc
        rw [if_pos hrep, List.erase_append_right _ hnotin, List.append_assoc]
        exact ⟨l₂.erase existing ++ [⟨t, fm.2, "fuzzy".data⟩], rfl⟩
      · rw [if_neg hrep]
        exact ⟨l₂, rfl⟩

theorem fuzzy_foldl_append (s : MatcherState) (fms : List (Str × ℚ)) (l₁ : List Cand)
    (h1 : ∀ x ∈ l₁, x.score = 100) (hfms : ∀ y ∈ fms, y.2 ≤ 100) :
    ∀ l₂, ∃ l₂', fms.foldl (fuzzy_step s) (l₁ ++ l₂) = l₁ ++ l₂' := by
  induction fms with
  | nil => intro l₂; exact ⟨l₂, rfl⟩
  | cons fm fms ih =>
    intro l₂
    obtain ⟨l₂', hstep⟩ := fuzzy_step_append s l₁ l₂ fm h1 (hfms fm (by simp))
    obtain ⟨l₂'', hrec⟩ := ih (fun y hy => hfms y (by simp [hy])) l₂'
    exact ⟨l₂'', by rw [List.foldl_cons, hstep, hrec]⟩

theorem fuzzy_step_good (s : MatcherState) (acc : List Cand) (fm : Str × ℚ)
    (hacc : ∀ x ∈ acc, candGood s x) (hfm : fm.2 ≤ 100) :
    ∀ x ∈ fuzzy_step s acc fm, candGood s x := by
  intro x hx
  unfold fuzzy_step at hx
  by_cases hth : s.similarity_threshold ≤ fm.2
  case neg => rw [if_neg hth] at hx; exact hacc x hx
  rw [if_pos hth] at hx
  cases hfind : s.templates.find? (fun t => t.question == fm.1) with
  | none => rw [hfind] at hx; exact hacc x hx
  | some t =>
    simp only [hfind] at hx
    have ht : t ∈ s.templates := List.mem_of_find?_eq_some hfind
    cases hex : acc.find? (fun m => m.template.id == t.id) with
    | none =>
      simp only [hex] at hx
      rcases List.mem_append.1 hx with hx | hx
      · exact hacc x hx
      · rcases List.mem_singleton.1 hx with rfl
        exact ⟨ht, hfm⟩
    | some existing =>
      simp only [hex] at hx
      by_cases hrep : existing.score < fm.2
      · rw [if_pos hrep] at hx
        rcases List.mem_append.1 hx with hx | hx
        · exact hacc x (List.mem_of_mem_erase hx)
        · rcases List.mem_singleton.1 hx with rfl
          exact ⟨ht, hfm⟩
      · rw [if_neg hrep] at hx
        exact hacc x hx

theorem fuzzy_foldl_good (s : MatcherState) (fms : List (Str × ℚ))
    (hfms : ∀ y ∈ fms, y.2 ≤ 100) :
    ∀ acc, (∀ x ∈ acc, candGood s x) →
      ∀ x ∈ fms.foldl (fuzzy_step s) acc, candGood s x := by
  induction fms with
  | nil => intro acc hacc; exact hacc
  | cons fm fms ih =>
    intro acc hacc
    exact ih (fun y hy => hfms y (by simp [hy]))
      _ (fuzzy_step_good s acc fm hacc (hfms fm (by simp)))

theorem jaccard_score_le_100 (a b : Finset Str) (h : 0 < (a ∪ b).card) :
    jaccard_score a b ≤ 100 := by
  unfold jaccard_score
  have hsub : (a ∩ b).card ≤ (a ∪ b).card :=
    Finset.card_le_card (Finset.inter_subset_union)
  have hposq : (0 : ℚ) < ((a ∪ b).card : ℚ) := by exact_mod_cast h
  have hle : ((a ∩ b).card : ℚ) / ((a ∪ b).card : ℚ) ≤ 1 := by
    rw [div_le_one hposq]
    exact_mod_cast hsub
  calc ((a ∩ b).card : ℚ) / ((a ∪ b).card : ℚ) * 100
      ≤ 1 * 100 := by
        apply mul_le_mul_of_nonneg_right hle
        norm_num
    _ = 100 := by norm_num

theorem keyword_step_append (s : MatcherState) (qw : Finset Str) (acc : List Cand)
    (t : Template) : ∃ ext, keyword_step s qw acc t = acc ++ ext := by
  unfold keyword_step
  by_cases h0 : 0 < (qw ∪ (pySplitWs (pyLower t.question)).toFinset).card
  · rw [if_pos h0]
    by_cases hth : s.similarity_threshold * (7 / 10) ≤
        jaccard_score qw (pySplitWs (pyLower t.question)).toFinset
    · rw [if_pos hth]
      by_cases hex : (acc.find? (fun m => m.template.id == t.id)).isSome = true
      · rw [if_pos hex]
        exact ⟨[], (List.append_nil acc).symm⟩
      · rw [if_neg hex]
        exact ⟨[⟨t, jaccard_score qw (pySplitWs (pyLower t.question)).toFinset,
          "keyword".data⟩], rfl⟩
    · rw [if_neg hth]
      exact ⟨[], (List.append_nil acc).symm⟩
  · rw [if_neg h0]
    exact ⟨[], (List.append_nil acc).symm⟩

theorem keyword_foldl_append (s : MatcherState) (qw : Finset Str) (ts : List Template) :
    ∀ acc, ∃ ext, ts.foldl (keyword_step s qw) acc = acc ++ ext := by
  induction ts with
  | nil => intro acc; exact ⟨[], (List.append_nil acc).symm⟩
  | cons t ts ih =>
    intro acc
    obtain ⟨e1, h1⟩ := keyword_step_append s qw acc t
    obtain ⟨e2, h2⟩ := ih (acc ++ e1)
    exact ⟨e1 ++ e2, by rw [List.foldl_cons, h1, h2, List.append_assoc]⟩

theorem keyword_step_good (s : MatcherState) (qw : Finset Str) (acc : List Cand)
    (t : Template) (ht : t ∈ s.templates) (hacc : ∀ x ∈ acc, candGood s x) :
    ∀ x ∈ keyword_step s qw acc t, candGood s x := by
  intro x hx
  unfold keyword_step at hx
  by_cases h0 : 0 < (qw ∪ (pySplitWs (pyLower t.question)).toFinset).card
  · rw [if_pos h0] at hx
    by_cases hth : s.similarity_threshold * (7 / 10) ≤
        jaccard_score qw (pySplitWs (pyLower t.question)).toFinset
    · rw [if_pos hth] at hx
      by_cases hex : (acc.find? (fun m => m.template.id == t.id)).isSome = true
      · rw [if_pos hex] at hx
        exact hacc x hx
      · rw [if_neg hex] at hx
        rcases List.mem_append.1 hx with hx | hx
        · exact hacc x hx
        · rcases List.mem_singleton.1 hx with rfl
          exact ⟨ht, jaccard_score_le_100 _ _ h0⟩
    · rw [if_neg hth] at hx
      exact hacc x hx
  · rw [if_neg h0] at hx
    exact hacc x hx

theorem keyword_foldl_good (s : MatcherState) (qw : Finset Str) (ts : List Template)
    (hts : ∀ t ∈ ts, t ∈ s.templates) :
    ∀ acc, (∀ x ∈ acc, candGood s x) →
      ∀ x ∈ ts.foldl (keyword_step s qw) acc, candGood s x := by
  induction ts with
  | nil => intro acc hacc; exact hacc
  | cons t ts ih =>
    intro acc hacc
    exact ih (fun u hu => hts u (by simp [hu])) _
      (keyword_step_good s qw acc t (hts t (by simp)) hacc)

theorem extract_scores_le (query : Str) (choices : List Str) (scorer : Str → Str → ℚ)
    (limit : Nat) (hs : ∀ c, scorer query c ≤ 100) :
    ∀ y ∈ extract query choices scorer limit, y.2 ≤ 100 := by
  intro y hy
  unfold extract at hy
  have h1 : y ∈ pySort scoreDescLE (choices.map fun c => (c, scorer query c)) :=
    List.mem_of_mem_take hy
  rw [mem_pySort] at h1
  rcases List.mem_map.1 h1 with ⟨c, _, rfl⟩
  exact hs c

theorem candLE_total (a b : Cand) : candLE a b = true ∨ candLE b a = true := by
  unfold candLE
  simp only [decide_eq_true_eq]
  rcases lt_trichotomy a.template.priority b.template.priority with h | h | h
  · exact Or.inr (Or.inl h)
  · rcases le_total a.score b.score with hs | hs
    · exact Or.inr (Or.inr ⟨h.symm, hs⟩)
    · exact Or.inl (Or.inr ⟨h, hs⟩)
  · exact Or.inl (Or.inl h)

theorem candLE_trans (a b c : Cand) (h1 : candLE a b = true) (h2 : candLE b c = true) :
    candLE a c = true := by
  unfold candLE at h1 h2 ⊢
  simp only [decide_eq_true_eq] at h1 h2 ⊢
  rcases h1 with h1 | ⟨h1e, h1s⟩ <;> rcases h2 with h2 | ⟨h2e, h2s⟩
  · exact Or.inl (lt_trans h2 h1)
  · exact Or.inl (h2e ▸ h1)
  · exact Or.inl (h1e ▸ h2)
  · exact Or.inr ⟨h1e.trans h2e, le_trans h2s h1s⟩

theorem candLE_priority_le (a b : Cand) (h : candLE a b = true) :
    b.template.priority ≤ a.template.priority := by
  unfold candLE at h
  simp only [decide_eq_true_eq] at h
  rcases h with h | ⟨he, _⟩
  · exact le_of_lt h
  · exact le_of_eq he.symm

theorem candLE_of_max (e x : Cand) (hpe : x.template.priority = e.template.priority)
    (he : e.score = 100) (hx : x.score ≤ 100) : candLE e x = true := by
  unfold candLE
  simp only [decide_eq_true_eq]
  exact Or.inr ⟨hpe.symm, he ▸ hx⟩

/-- Under equal priorities and a 0..100-bounded scorer, an exact hit puts the
first exactly-matching template's score-100 "exact" candidate at the head of
the ranked candidate list: no fuzzy or keyword score of any other template can
displace it. -/
theorem find_best_matches_head_exact
    (s : MatcherState) (q : Str) (mm : Nat) (scorer : Str → Str → ℚ)
    (p : Int) (hpri : ∀ t ∈ s.templates, t.priority = p)
    (hsc : ∀ a b : Str, scorer a b ≤ 100)
    (t0 : Template)
    (hfind : s.templates.find? (fun u => u.variations.contains (pyLower q)) = some t0)
    (hmm : 1 ≤ mm) :
    (find_best_matches s q mm scorer).head? = some ⟨t0, 100, "exact".data⟩ := by
  have hdef : find_best_matches s q mm scorer =
      (pySort candLE (s.templates.foldl
        (keyword_step s ((pySplitWs (pyLower q)).toFinset))
        ((extract q (s.templates.map (fun t => t.question)) scorer (mm * 2)).foldl
          (fuzzy_step s)
          (exact_cands s.templates (pyLower q))))).take mm := rfl
  rw [hdef]
  obtain ⟨rest, hE⟩ := exact_cands_head s.templates (pyLower q) t0 hfind
  have hE100 : ∀ x ∈ exact_cands s.templates (pyLower q), x.score = 100 :=
    fun x hx => (mem_exact_cands _ _ x hx).1
  have hEgood : ∀ x ∈ exact_cands s.templates (pyLower q), candGood s x :=
    fun x hx => ⟨(mem_exact_cands _ _ x hx).2, le_of_eq (mem_exact_cands _ _ x hx).1⟩
  have hfms : ∀ y ∈ extract q (s.templates.map (fun t => t.question)) scorer (mm * 2),
      y.2 ≤ 100 :=
    extract_scores_le q _ scorer (mm * 2) (fun c => hsc q c)
  obtain ⟨l₂, hm2⟩ := fuzzy_foldl_append s
    (extract q (s.templates.map (fun t => t.question)) scorer (mm * 2))
    (exact_cands s.templates (pyLower q)) hE100 hfms []
  rw [List.append_nil] at hm2
  have hm2good : ∀ x ∈ (extract q (s.templates.map (fun t => t.question)) scorer
      (mm * 2)).foldl (fuzzy_step s) (exact_cands s.templates (pyLower q)),
      candGood s x :=
    fuzzy_foldl_good s _ hfms _ hEgood
  obtain ⟨ext, hm3⟩ := keyword_foldl_append s ((pySplitWs (pyLower q)).toFinset)
    s.templates ((extract q (s.templates.map (fun t => t.question)) scorer
      (mm * 2)).foldl (fuzzy_step s) (exact_cands s.templates (pyLower q)))
  have hm3good : ∀ x ∈ s.templates.foldl
      (keyword_step s ((pySplitWs (pyLower q)).toFinset))
      ((extract q (s.templates.map (fun t => t.question)) scorer (mm * 2)).foldl
        (fuzzy_step s) (exact_cands s.templates (pyLower q))), candGood s x :=
    keyword_foldl_good s _ s.templates (fun t ht => ht) _ hm2good
  rw [hm3, hm2, hE]
  have ht0 : t0 ∈ s.templates := List.mem_of_find?_eq_some hfind
  have hm3' : ((⟨t0, 100, "exact".data⟩ : Cand) :: rest) ++ l₂ ++ ext
      = (⟨t0, 100, "exact".data⟩ : Cand) :: (rest ++ l₂ ++ ext) := by
    simp
  rw [hm3']
  have htail : ∀ x ∈ rest ++ l₂ ++ ext, candLE ⟨t0, 100, "exact".data⟩ x = true := by
    intro x hx
    have hxm3 : x ∈ s.templates.foldl
        (keyword_step s ((pySplitWs (pyLower q)).toFinset))
        ((extract q (s.templates.map (fun t => t.question)) scorer (mm * 2)).foldl
          (fuzzy_step s) (exact_cands s.templates (pyLower q))) := by
      rw [hm3, hm2, hE, hm3']
      exact List.mem_cons_of_mem _ hx
    obtain ⟨hxt, hxs⟩ := hm3good x hxm3
    exact candLE_of_max _ x ((hpri x.template hxt).trans (hpri t0 ht0).symm) rfl hxs
  rw [pySort_cons_of_le candLE _ _ htail]
  cases mm with
  | zero => omega
  | succ k => simp [List.take_succ_cons]

/-- On a cache miss with a non-empty collection and non-empty stripped query,
`match_template` reduces to ranking plus an optional cache write. -/
theorem match_template_miss (s : MatcherState) (q : Str) (mm : Nat)
    (scorer : Str → Str → ℚ)
    (h1 : s.templates.isEmpty = false)
    (h2 : (pyStrip q).isEmpty = false)
    (h3 : s.question_cache.lookup (pyLower (pyStrip q)) = none) :
    match_template s q mm scorer =
      match find_best_matches s (pyStrip q) mm scorer with
      | [] => (s, none)
      | best :: _ =>
        ({ s with question_cache :=
            s.question_cache ++ [(pyLower (pyStrip q), best.template.answer)] },
         some best.template.answer) := by
  unfold match_template
  simp only [h1, h2, h3, Bool.false_eq_true, if_false]

/-! ### Demonstration states used by the concrete theorems below -/

/-- A conservative stand-in for `rapidfuzz.fuzz.partial_ratio`: 100 when one
string contains the other (the real partial ratio is also 100 there), 0
otherwise.  Used only to instantiate concrete scenarios. -/
def demo_scorer (q c : Str) : ℚ :=
  if decide (q <:+: c) || decide (c <:+: q) then 100 else 0

def tA : Template :=
  ⟨0, "alpha beta gamma".data, "ANSA".data, "General".data, 1, [], "runtime".data,
   generate_variations ("alpha beta gamma".data)⟩

def tB : Template :=
  ⟨1, "alpha beta gamma delta".data, "ANSB".data, "General".data, 5, [], "runtime".data,
   generate_variations ("alpha beta gamma delta".data)⟩

/-- Two templates: `tA`the query's exact match with priority 1, `tB` a
priority-5 template surfaced by the fuzzy/keyword strategies. -/
def demoS1 : MatcherState :=
  ⟨"data/templates".data, 75, [tA, tB], build_search_index [tA, tB],
   {"General".data}, [], none⟩

def tW : Template :=
  ⟨0, "Hello?".data, "Hi".data, "General".data, 1, [], "runtime".data,
   generate_variations ("Hello?".data)⟩

/-- A one-template state used by witnesses. -/
def demoW : MatcherState :=
  ⟨"data/templates".data, 75, [tW], build_search_index [tW],
   {"General".data}, [], none⟩

/-! ### Claim C1 -/

/-- Claim C1, counterexample.  The query "alpha beta gamma" equals template
`tA`'s question exactly (case-insensitively), so `tA` receives the score-100
"exact" candidate; but the merged list is ranked priority-first, and `tB`
(priority 5, surfaced by fuzzy containment at 100 and keyword overlap at 75)
outranks it: `match_template` returns `tB`'s answer, not `tA`'s, refuting the
claim that the exact candidate ranks first regardless of other templates'
fuzzy/keyword scores. -/
theorem C1_counterexample :
    pyLower ("alpha beta gamma".data) = pyLower tA.question ∧
    tA ∈ demoS1.templates ∧
    (match_template demoS1 ("alpha beta gamma".data) 3 demo_scorer).2
      = some ("ANSB".data) ∧
    (match_template demoS1 ("alpha beta gamma".data) 3 demo_scorer).2
      ≠ some tA.answer := by
  refine ⟨by with_unfolding_all decide, by with_unfolding_all decide,
    by with_unfolding_all decide, by with_unfolding_all decide⟩

/-- Claim C1, amended: restricted to collections in which all templates share
one priority (and to the cache-miss path, with the scorer bounded by 100 as
`partial_ratio` is), an exactly matching query puts the score-100 "exact"
candidate of the first template whose variations contain the lowered query at
the head of the merged ranked list, regardless of the fuzzy or keyword scores
of any other template, and `match_template` returns that template's answer. -/
theorem C1_amended_exact_first_among_equal_priorities
    (s : MatcherState) (q : Str) (mm : Nat) (scorer : Str → Str → ℚ)
    (p : Int) (hpri : ∀ t ∈ s.templates, t.priority = p)
    (hsc : ∀ a b : Str, scorer a b ≤ 100)
    (t' : Template) (ht' : t' ∈ s.templates)
    (hvar : t'.variations = generate_variations t'.question)
    (hq : pyLower (pyStrip q) = pyStrip (pyLower t'.question))
    (hqne : pyStrip q ≠ [])
    (hcache : s.question_cache.lookup (pyLower (pyStrip q)) = none)
    (hmm : 1 ≤ mm) :
    ∃ t0 : Template,
      s.templates.find? (fun u => u.variations.contains (pyLower (pyStrip q)))
        = some t0 ∧
      (find_best_matches s (pyStrip q) mm scorer).head?
        = some ⟨t0, 100, "exact".data⟩ ∧
      (match_template s q mm scorer).2 = some t0.answer := by
  have hmemvar : pyLower (pyStrip q) ∈ t'.variations := by
    rw [hvar, hq]
    simp only [generate_variations]
    rw [List.mem_dedup]
    exact List.mem_cons_self _ _
  obtain ⟨t0, hfind⟩ : ∃ t0, s.templates.find?
      (fun u => u.variations.contains (pyLower (pyStrip q))) = some t0 := by
    have hex : (s.templates.find?
        (fun u => u.variations.contains (pyLower (pyStrip q)))).isSome := by
      rw [List.find?_isSome]
      exact ⟨t', ht', List.elem_iff.mpr hmemvar⟩
    exact Option.isSome_iff_exists.1 hex
  have hhead := find_best_matches_head_exact s (pyStrip q) mm scorer p hpri hsc
    t0 hfind hmm
  refine ⟨t0, hfind, hhead, ?_⟩
  have h1 : s.templates.isEmpty = false := by
    cases hts : s.templates with
    | nil => rw [hts] at ht'; cases ht'
    | cons a l => rfl
  have h2 : (pyStrip q).isEmpty = false := by
    cases hq' : pyStrip q with
    | nil => exact absurd hq' hqne
    | cons a l => rfl
  rw [match_template_miss s q mm scorer h1 h2 hcache]
  cases hfb : find_best_matches s (pyStrip q) mm scorer with
  | nil => rw [hfb] at hhead; cases hhead
  | cons best tail =>
    rw [hfb] at hhead
    have hbest : best = ⟨t0, 100, "exact".data⟩ := by
      simpa using hhead
    rw [hbest]

/-- Claim C1, witness: the amended theorem applied to a one-template state
(question "Hello?", priority 1) and the query "hello?". -/
theorem C1_witness :
    ∃ t0 : Template,
      demoW.templates.find?
          (fun u => u.variations.contains (pyLower (pyStrip ("hello?".data))))
        = some t0 ∧
      (find_best_matches demoW (pyStrip ("hello?".data)) 3 (fun _ _ => 0)).head?
        = some ⟨t0, 100, "exact".data⟩ ∧
      (match_template demoW ("hello?".data) 3 (fun _ _ => 0)).2 = some t0.answer :=
  C1_amended_exact_first_among_equal_priorities demoW ("hello?".data) 3
    (fun _ _ => 0) 1 (by decide) (by intro a b; norm_num) tW (by decide) rfl
    (by decide) (by decide) rfl (by decide)

/-! ### Claim C2 -/

def t2 : Template :=
  ⟨0, "alpha beta".data, "X".data, "General".data, 1, [], "runtime".data,
   generate_variations ("alpha beta".data)⟩

/-- One-template state for the C2 scenario. -/
def demoS2 : MatcherState :=
  ⟨"data/templates".data, 75, [t2], build_search_index [t2],
   {"General".data}, [], none⟩

/-- Claim C2, counterexample.  For the query "beta alpha", template `t2`
("alpha beta") first receives a fuzzy candidate with score 80 (≥ threshold
75); the keyword stage then scores the same template at 100 (identical word
sets; 100 ≥ 0.7 · 75) — a strictly higher score — yet the merged list keeps
the existing lower-scoring fuzzy entry: the later higher-scoring keyword
candidate does not replace it, contradicting the claimed merge rule. -/
theorem C2_counterexample :
    ((find_best_matches demoS2 ("beta alpha".data) 3 (fun _ _ => 80)).map
        (fun c => (c.score, c.method)) = [((80 : ℚ), "fuzzy".data)]) ∧
    jaccard_score ((pySplitWs (pyLower ("beta alpha".data))).toFinset)
        ((pySplitWs (pyLower t2.question)).toFinset) = 100 ∧
    demoS2.similarity_threshold * (7 / 10) ≤ 100 ∧ (80 : ℚ) < 100 := by
  refine ⟨by with_unfolding_all decide, by with_unfolding_all decide,
    by with_unfolding_all decide, by with_unfolding_all decide⟩

/-- Claim C2, amended: candidates are keyed by template id; the fuzzy stage
replaces an existing candidate exactly when its score is strictly higher and
keeps the existing entry otherwise, while the keyword stage never replaces —
when the template already has a candidate the existing entry is kept
regardless of the keyword score. -/
theorem C2_amended_merge_rule
    (s : MatcherState) (cands : List Cand) (fm : Str × ℚ) (t : Template)
    (c : Cand) (qw : Finset Str)
    (hth : s.similarity_threshold ≤ fm.2)
    (hfind : s.templates.find? (fun u => u.question == fm.1) = some t)
    (hc : cands.find? (fun m => m.template.id == t.id) = some c) :
    (c.score < fm.2 →
      fuzzy_step s cands fm = cands.erase c ++ [⟨t, fm.2, "fuzzy".data⟩]) ∧
    (fm.2 ≤ c.score → fuzzy_step s cands fm = cands) ∧
    keyword_step s qw cands t = cands := by
  refine ⟨?_, ?_, ?_⟩
  · intro hrep
    unfold fuzzy_step
    rw [if_pos hth]
    simp only [hfind, hc]
    rw [if_pos hrep]
  · intro hkeep
    unfold fuzzy_step
    rw [if_pos hth]
    simp only [hfind, hc]
    rw [if_neg (not_lt.mpr hkeep)]
  · unfold keyword_step
    have hex : (cands.find? (fun m => m.template.id == t.id)).isSome = true := by
      rw [hc]; rfl
    by_cases h0 : 0 < (qw ∪ (pySplitWs (pyLower t.question)).toFinset).card
    · rw [if_pos h0]
      by_cases hth2 : s.similarity_threshold * (7 / 10) ≤
          jaccard_score qw (pySplitWs (pyLower t.question)).toFinset
      · rw [if_pos hth2, if_pos hex]
      · rw [if_neg hth2]
    · rw [if_neg h0]

def demo_cand : Cand := ⟨tW, 90, "fuzzy".data⟩

/-- Claim C2, witness: the amended merge rule applied to a concrete state,
candidate list and fuzzy score. -/
theorem C2_witness :
    ((demo_cand.score < (80 : ℚ) →
      fuzzy_step demoW [demo_cand] (tW.question, 80)
        = [demo_cand].erase demo_cand ++ [⟨tW, 80, "fuzzy".data⟩]) ∧
    ((80 : ℚ) ≤ demo_cand.score →
      fuzzy_step demoW [demo_cand] (tW.question, 80) = [demo_cand]) ∧
    keyword_step demoW ∅ [demo_cand] tW = [demo_cand]) :=
  C2_amended_merge_rule demoW [demo_cand] (tW.question, 80) tW demo_cand ∅
    (by with_unfolding_all decide) (by with_unfolding_all decide)
    (by with_unfolding_all decide)

/-! ### Claim C3 -/

/-- State with a non-empty result cache. -/
def demoS3 : MatcherState :=
  ⟨"data/templates".data, 75, [tW], build_search_index [tW],
   {"General".data}, [("hi".data, "old".data)], none⟩

/-- Claim C3: the claim (and the spec's intended contract) says the Result
Cache is empty after every `add_template`; the code only clears it on reload.
Here `add_template` succeeds (returns `True`) yet the pre-existing cache entry
survives unchanged, while `reload_templates` does clear the cache. -/
theorem C3_add_template_keeps_cache :
    (add_template demoS3 ("Apa itu AI?".data) ("Kecerdasan buatan".data)
        ("General".data) 1).2 = true ∧
    (add_template demoS3 ("Apa itu AI?".data) ("Kecerdasan buatan".data)
        ("General".data) 1).1.question_cache = [("hi".data, "old".data)] ∧
    demoS3.question_cache ≠ [] ∧
    (reload_templates demoS3 true [] 0).question_cache = [] := by
  refine ⟨rfl, by with_unfolding_all decide, by decide, rfl⟩

/-! ### Claim C4 -/

/-- The ranked list produced by `_find_best_matches` is pairwise ordered by
the comparator `(priority desc, score desc)`. -/
theorem find_best_matches_pairwise (s : MatcherState) (q : Str) (mm : Nat)
    (scorer : Str → Str → ℚ) :
    (find_best_matches s q mm scorer).Pairwise (fun a b => candLE a b = true) := by
  obtain ⟨m3, h⟩ : ∃ m3, find_best_matches s q mm scorer = (pySort candLE m3).take mm :=
    ⟨_, rfl⟩
  rw [h]
  exact List.Pairwise.sublist (List.take_sublist mm _)
    (pySort_pairwise candLE candLE_total candLE_trans m3)

/-- Claim C4: ranking is priority-first.  In every ranked candidate list a
higher-priority template is never placed after a lower-priority one (the
priorities along the list are non-increasing, whatever the scores), and on a
cache miss `match_template` returns the answer of the head (top-ranked)
candidate — so a surfaced higher-priority template's answer wins even against
higher-scoring lower-priority ones. -/
theorem C4_priority_dominates_score
    (s : MatcherState) (q : Str) (mm : Nat) (scorer : Str → Str → ℚ) :
    (find_best_matches s q mm scorer).Pairwise
      (fun a b => b.template.priority ≤ a.template.priority) ∧
    (∀ c : Cand, s.templates.isEmpty = false → (pyStrip q).isEmpty = false →
      s.question_cache.lookup (pyLower (pyStrip q)) = none →
      (find_best_matches s (pyStrip q) mm scorer).head? = some c →
      (match_template s q mm scorer).2 = some c.template.answer) := by
  constructor
  · exact (find_best_matches_pairwise s q mm scorer).imp
      (fun h => candLE_priority_le _ _ h)
  · intro c h1 h2 h3 hhead
    rw [match_template_miss s q mm scorer h1 h2 h3]
    cases hfb : find_best_matches s (pyStrip q) mm scorer with
    | nil => rw [hfb] at hhead; cases hhead
    | cons best tail =>
      rw [hfb] at hhead
      have hbest : best = c := by simpa using hhead
      rw [hbest]

/-- Claim C4, witness: in `demoS1` the priority-5 template `tB` heads the
ranked list ahead of the score-100 exact candidate of priority-1 `tA`, and its
answer is returned. -/
theorem C4_witness :
    (find_best_matches demoS1 ("alpha beta gamma".data) 3 demo_scorer).Pairwise
      (fun a b => b.template.priority ≤ a.template.priority) ∧
    (match_template demoS1 ("alpha beta gamma".data) 3 demo_scorer).2
      = some tB.answer := by
  refine ⟨(C4_priority_dominates_score demoS1 ("alpha beta gamma".data) 3
    demo_scorer).1, ?_⟩
  exact (C4_priority_dominates_score demoS1 ("alpha beta gamma".data) 3
      demo_scorer).2 ⟨tB, 100, "fuzzy".data⟩ (by decide) (by decide) rfl
    (by with_unfolding_all decide)

/-! ### Claim C5 -/

/-- One `process_row` call either leaves the collection unchanged or appends a
template whose stored (stripped) question and answer are non-empty. -/
theorem process_row_mem (f c : Str) (s : MatcherState) (row : Row) :
    ∀ t ∈ (process_row f c s row).templates,
      t ∈ s.templates ∨ (t.question ≠ [] ∧ t.answer ≠ []) := by
  intro t ht
  unfold process_row at ht
  by_cases hval : ((pyStrip row.question).isEmpty || (pyStrip row.answer).isEmpty ||
      (pyStrip row.question == "nan".data) || (pyStrip row.answer == "nan".data)) = true
  · rw [if_pos hval] at ht
    exact Or.inl ht
  · rw [if_neg hval] at ht
    simp only [Bool.or_eq_true, not_or] at hval
    obtain ⟨⟨⟨hq, ha⟩, _⟩, _⟩ := hval
    cases hpr : row.priority.getD (some 1) with
    | none => rw [hpr] at ht; exact Or.inl ht
    | some k =>
      rw [hpr] at ht
      simp only at ht
      rcases List.mem_append.1 ht with ht | ht
      · exact Or.inl ht
      · rcases List.mem_singleton.1 ht with rfl
        refine Or.inr ⟨?_, ?_⟩
        · intro h
          apply hq
          show (pyStrip row.question).isEmpty = true
          rw [show pyStrip row.question = [] from h]
          rfl
        · intro h
          apply ha
          show (pyStrip row.answer).isEmpty = true
          rw [show pyStrip row.answer = [] from h]
          rfl

/-- Claim C5 (amended): every template stored by the CSV row loop has a
non-empty question and a non-empty answer after trimming — rows failing the
check are dropped.  `add_template`, by contrast, performs no such validation
(see `C5_counterexample`). -/
theorem C5_amended_csv_rows_validated (filename : Str) (rows : List Row)
    (s : MatcherState) :
    ∀ t ∈ (load_csv_rows filename rows s).templates,
      t ∈ s.templates ∨ (t.question ≠ [] ∧ t.answer ≠ []) := by
  unfold load_csv_rows
  suffices h : ∀ c s, ∀ t ∈ (rows.foldl (process_row filename c) s).templates,
      t ∈ s.templates ∨ (t.question ≠ [] ∧ t.answer ≠ []) by
    exact h (default_category filename) s
  induction rows with
  | nil => intro c s t ht; exact Or.inl ht
  | cons row rows ih =>
    intro c s t ht
    rw [List.foldl_cons] at ht
    rcases ih c (process_row filename c s row) t ht with hmem | hok
    · exact process_row_mem filename c s row t hmem
    · exact Or.inr hok

/-- Claim C5, counterexample.  `add_template` with a whitespace-only question
succeeds (returns `True`) and stores a template whose trimmed question is
empty — the non-emptiness invariant does not hold under `add_template`. -/
theorem C5_counterexample :
    (add_template demoW ("   ".data) ("x".data) ("General".data) 1).2 = true ∧
    ((add_template demoW ("   ".data) ("x".data) ("General".data) 1).1.templates.map
      (fun t => t.question)) = [tW.question, []] := by
  refine ⟨rfl, by with_unfolding_all decide⟩

def demo_row : Row := ⟨"b q".data, "b a".data, none, none, none⟩

def demoLoadedT : Template :=
  ⟨1, "b q".data, "b a".data, "Faq".data, 1, [], "faq.csv".data,
   generate_variations ("b q".data)⟩

/-- Claim C5, witness: the row-loop theorem applied to the template produced
from a concrete CSV row. -/
theorem C5_witness :
    demoLoadedT ∈ demoW.templates ∨
      (demoLoadedT.question ≠ [] ∧ demoLoadedT.answer ≠ []) :=
  C5_amended_csv_rows_validated ("faq.csv".data) [demo_row] demoW demoLoadedT
    (by with_unfolding_all decide)

/-! ### Claim C6 -/

/-- Appending a template whose id is the current length keeps ids equal to
insertion indices. -/
theorem ids_snoc (l : List Template) (t : Template)
    (h : l.map (fun u => u.id) = List.range l.length) (ht : t.id = l.length) :
    (l ++ [t]).map (fun u => u.id) = List.range (l ++ [t]).length := by
  simp [h, ht, List.range_succ]

theorem process_row_ids (f c : Str) (s : MatcherState) (row : Row)
    (h : s.templates.map (fun u => u.id) = List.range s.templates.length) :
    (process_row f c s row).templates.map (fun u => u.id)
      = List.range (process_row f c s row).templates.length := by
  unfold process_row
  by_cases hval : ((pyStrip row.question).isEmpty || (pyStrip row.answer).isEmpty ||
      (pyStrip row.question == "nan".data) || (pyStrip row.answer == "nan".data)) = true
  · rw [if_pos hval]; exact h
  · rw [if_neg hval]
    cases hpr : row.priority.getD (some 1) with
    | none => exact h
    | some k =>
      simp only
      exact ids_snoc s.templates _ h rfl

theorem load_csv_rows_foldl_ids (f c : Str) (rows : List Row) :
    ∀ s : MatcherState,
      s.templates.map (fun u => u.id) = List.range s.templates.length →
      (rows.foldl (process_row f c) s).templates.map (fun u => u.id)
        = List.range (rows.foldl (process_row f c) s).templates.length := by
  induction rows with
  | nil => intro s h; exact h
  | cons row rows ih =>
    intro s h
    rw [List.foldl_cons]
    exact ih _ (process_row_ids f c s row h)

theorem load_csv_rows_ids (f : Str) (rows : List Row) (s : MatcherState)
    (h : s.templates.map (fun u => u.id) = List.range s.templates.length) :
    (load_csv_rows f rows s).templates.map (fun u => u.id)
      = List.range (load_csv_rows f rows s).templates.length :=
  load_csv_rows_foldl_ids f (default_category f) rows s h

theorem load_csv_template_ids (s : MatcherState) (file : CsvFile)
    (h : s.templates.map (fun u => u.id) = List.range s.templates.length) :
    (load_csv_template s file).templates.map (fun u => u.id)
      = List.range (load_csv_template s file).templates.length := by
  unfold load_csv_template
  by_cases hr : (!file.readable) = true
  · rw [if_pos hr]; exact h
  · rw [if_neg hr]
    by_cases hc : (!((file.columns.map (fun c => pyLower (pyStrip c))).contains
        ("question".data) && (file.columns.map (fun c => pyLower (pyStrip c))).contains
        ("answer".data))) = true
    · rw [if_pos hc]; exact h
    · rw [if_neg hc]
      exact load_csv_rows_ids file.filename file.rows s h

theorem reload_templates_ids (s : MatcherState) (fe : Bool) (files : List CsvFile)
    (now : Nat) :
    (reload_templates s fe files now).templates.map (fun u => u.id)
      = List.range (reload_templates s fe files now).templates.length := by
  unfold reload_templates
  have hbase : ∀ s0 : MatcherState, s0.templates = [] →
      s0.templates.map (fun u => u.id) = List.range s0.templates.length := by
    intro s0 h0; rw [h0]; rfl
  have hfold : ∀ (fs : List CsvFile) (s0 : MatcherState),
      s0.templates.map (fun u => u.id) = List.range s0.templates.length →
      (fs.foldl load_csv_template s0).templates.map (fun u => u.id)
        = List.range (fs.foldl load_csv_template s0).templates.length := by
    intro fs
    induction fs with
    | nil => intro s0 h0; exact h0
    | cons f fs ih =>
      intro s0 h0
      rw [List.foldl_cons]
      exact ih _ (load_csv_template_ids s0 f h0)
  by_cases hfe : (!fe) = true
  · rw [if_pos hfe]; rfl
  · rw [if_neg hfe]
    by_cases hcsv : (files.filter (fun f => pyEndsWith (".csv".data) f.filename)).isEmpty = true
    · rw [if_pos hcsv]; rfl
    · rw [if_neg hcsv]
      exact hfold _ _ rfl

/-- Claim C6 (amended): within one generation template ids always equal the
insertion index (`templates.map id = range length`), hence they are unique and
monotonically assigned; this invariant is preserved by `add_template` and the
CSV row loop and re-established from 0 by `reload_templates` — so ids ARE
reused across reloads (see `C6_counterexample`), refuting the
"never reused within a process lifetime" part. -/
theorem C6_amended_ids_are_indices
    (s : MatcherState) (q a c : Str) (k : Int) (fn : Str) (rows : List Row)
    (fe : Bool) (files : List CsvFile) (now : Nat)
    (h : s.templates.map (fun u => u.id) = List.range s.templates.length) :
    ((add_template s q a c k).1.templates.map (fun u => u.id)
        = List.range (add_template s q a c k).1.templates.length) ∧
    ((load_csv_rows fn rows s).templates.map (fun u => u.id)
        = List.range (load_csv_rows fn rows s).templates.length) ∧
    ((reload_templates s fe files now).templates.map (fun u => u.id)
        = List.range (reload_templates s fe files now).templates.length) := by
  refine ⟨?_, load_csv_rows_ids fn rows s h, reload_templates_ids s fe files now⟩
  have hform : (add_template s q a c k).1.templates
      = s.templates ++ [⟨s.templates.length, pyStrip q, pyStrip a, c, k, [],
          "runtime".data, generate_variations q⟩] := rfl
  rw [hform]
  exact ids_snoc s.templates _ h rfl

def demoEmpty : MatcherState :=
  ⟨"data/templates".data, 75, [], [], ∅, [], none⟩

def demo_file : CsvFile :=
  ⟨"faq.csv".data, true, ["question".data, "answer".data], [demo_row]⟩

/-- Claim C6, counterexample.  A template added at runtime gets id 0; after a
reload that loads one CSV row, the (different) newly loaded template again has
id 0 — the id is reused within the same process lifetime. -/
theorem C6_counterexample :
    ((add_template demoEmpty ("a q".data) ("a a".data) ("General".data) 1).1.templates.map
      (fun u => u.id)) = [0] ∧
    ((reload_templates (add_template demoEmpty ("a q".data) ("a a".data)
        ("General".data) 1).1 true [demo_file] 5).templates.map (fun u => u.id)) = [0] ∧
    ((reload_templates (add_template demoEmpty ("a q".data) ("a a".data)
        ("General".data) 1).1 true [demo_file] 5).templates.map (fun u => u.question))
      ≠ ((add_template demoEmpty ("a q".data) ("a a".data)
        ("General".data) 1).1.templates.map (fun u => u.question)) := by
  refine ⟨by with_unfolding_all decide, by with_unfolding_all decide,
    by with_unfolding_all decide⟩

/-- Claim C6, witness: the id-is-index invariant applied to the two-template
state `demoS1` for a concrete add, row load and reload. -/
theorem C6_witness :
    (((add_template demoS1 ("q".data) ("a".data) ("General".data) 2).1.templates.map
        (fun u => u.id))
      = List.range (add_template demoS1 ("q".data) ("a".data)
          ("General".data) 2).1.templates.length) ∧
    (((load_csv_rows ("faq.csv".data) [demo_row] demoS1).templates.map (fun u => u.id))
      = List.range (load_csv_rows ("faq.csv".data) [demo_row] demoS1).templates.length) ∧
    (((reload_templates demoS1 true [demo_file] 7).templates.map (fun u => u.id))
      = List.range (reload_templates demoS1 true [demo_file] 7).templates.length) :=
  C6_amended_ids_are_indices demoS1 ("q".data) ("a".data) ("General".data) 2
    ("faq.csv".data) [demo_row] true [demo_file] 7 (by with_unfolding_all decide)

/-! ### Claim C7 -/

/-- Claim C7: with an empty collection, or a query that trims to empty
(including the empty query), `match_template` returns the absence indicator
`none` and leaves the state untouched.  The model is a total function, so no
exception can propagate. -/
theorem C7_empty_inputs_no_match
    (s : MatcherState) (q : Str) (mm : Nat) (scorer : Str → Str → ℚ)
    (h : s.templates = [] ∨ pyStrip q = []) :
    match_template s q mm scorer = (s, none) := by
  unfold match_template
  rcases h with h | h
  · rw [if_pos (by simp [h])]
  · by_cases h1 : s.templates.isEmpty = true
    · rw [if_pos h1]
    · rw [if_neg h1]
      simp only [h, List.isEmpty_nil, if_true]

/-- Claim C7, witness: the whitespace-only query against a non-empty
collection, and any query against the empty collection. -/
theorem C7_witness :
    match_template demoW ("   ".data) 3 (fun _ _ => 0) = (demoW, none) ∧
    match_template demoEmpty ("hello".data) 3 (fun _ _ => 0) = (demoEmpty, none) :=
  ⟨C7_empty_inputs_no_match demoW ("   ".data) 3 (fun _ _ => 0)
      (Or.inr (by decide)),
   C7_empty_inputs_no_match demoEmpty ("hello".data) 3 (fun _ _ => 0)
      (Or.inl rfl)⟩

/-! ### Claim C8 -/

/-- Claim C8, counterexample.  An unhashable non-string `category` (e.g. a
list) raises `TypeError` at `self.categories.add(category)`, which runs after
`self.templates.append(template)`: `add_template` returns `False`, yet the
collection has grown by one template — a partial insert is observable, so
`add_template` is not atomic on failure. -/
theorem C8_counterexample :
    (add_template_checked demoW (some ("Q".data)) (some ("A".data))
        (PyCat.unhashable []) 1).2 = false ∧
    (add_template_checked demoW (some ("Q".data)) (some ("A".data))
        (PyCat.unhashable []) 1).1 ≠ demoW ∧
    (add_template_checked demoW (some ("Q".data)) (some ("A".data))
        (PyCat.unhashable []) 1).1.templates.length
      = demoW.templates.length + 1 := by
  refine ⟨rfl, by with_unfolding_all decide, by with_unfolding_all decide⟩

/-- Claim C8, amended: atomicity on failure holds only for failures raised
while the template dict is being built — a non-string question or answer
raising at `.strip()` makes `add_template` return `False` with the state
exactly as before, whatever the category.  A failure at
`self.categories.add` (unhashable non-string category), however, happens
after `self.templates.append`: `add_template` returns `False` but the new
template stays in the collection (only the category set, search index and
result cache are as before) — a partial insert is observable. -/
theorem C8_amended_failure_paths
    (s : MatcherState) (q a : Option Str) (cat : PyCat) (q' a' r : Str) (k : Int) :
    ((q = none ∨ a = none) → add_template_checked s q a cat k = (s, false)) ∧
    (add_template_checked s (some q') (some a') (PyCat.unhashable r) k).2 = false ∧
    (add_template_checked s (some q') (some a') (PyCat.unhashable r) k).1.templates
      = s.templates ++ [⟨s.templates.length, pyStrip q', pyStrip a', r, k, [],
          "runtime".data, generate_variations q'⟩] ∧
    (add_template_checked s (some q') (some a') (PyCat.unhashable r) k).1.categories
      = s.categories ∧
    (add_template_checked s (some q') (some a') (PyCat.unhashable r) k).1.template_index
      = s.template_index ∧
    (add_template_checked s (some q') (some a') (PyCat.unhashable r) k).1.question_cache
      = s.question_cache := by
  refine ⟨?_, rfl, rfl, rfl, rfl, rfl⟩
  intro h
  rcases h with h | h
  · rw [h]
    cases a <;> rfl
  · rw [h]
    cases q <;> rfl

/-- Claim C8, witness: a `None` question fails atomically, while an unhashable
category fails after the append, leaving exactly one new template behind. -/
theorem C8_witness :
    add_template_checked demoW none (some ("x".data)) (PyCat.str ("General".data)) 1
      = (demoW, false) ∧
    (add_template_checked demoW (some ("Qz".data)) (some ("Az".data))
        (PyCat.unhashable []) 1).2 = false ∧
    (add_template_checked demoW (some ("Qz".data)) (some ("Az".data))
        (PyCat.unhashable []) 1).1.templates
      = demoW.templates ++ [⟨demoW.templates.length, pyStrip ("Qz".data),
          pyStrip ("Az".data), [], 1, [], "runtime".data,
          generate_variations ("Qz".data)⟩] := by
  have h := C8_amended_failure_paths demoW none (some ("x".data))
    (PyCat.str ("General".data)) ("Qz".data) ("Az".data) [] 1
  exact ⟨h.1 (Or.inl rfl), h.2.1, h.2.2.1⟩

/-! ### Claim C10 -/

/-- Claim C10: `match_template` never changes the templates folder, threshold,
template collection, search index, category set or last-reload stamp; the
result cache either stays identical or gains exactly one entry, keyed by the
lowered trimmed query, whose value is the returned answer. -/
theorem C10_match_template_frame
    (s : MatcherState) (q : Str) (mm : Nat) (scorer : Str → Str → ℚ) :
    (match_template s q mm scorer).1.templates_folder = s.templates_folder ∧
    (match_template s q mm scorer).1.similarity_threshold = s.similarity_threshold ∧
    (match_template s q mm scorer).1.templates = s.templates ∧
    (match_template s q mm scorer).1.template_index = s.template_index ∧
    (match_template s q mm scorer).1.categories = s.categories ∧
    (match_template s q mm scorer).1.last_reload = s.last_reload ∧
    ((match_template s q mm scorer).1.question_cache = s.question_cache ∨
      ∃ a, (match_template s q mm scorer).2 = some a ∧
        (match_template s q mm scorer).1.question_cache
          = s.question_cache ++ [(pyLower (pyStrip q), a)]) := by
  unfold match_template
  by_cases h1 : s.templates.isEmpty = true
  · rw [if_pos h1]
    exact ⟨rfl, rfl, rfl, rfl, rfl, rfl, Or.inl rfl⟩
  · rw [if_neg h1]
    by_cases h2 : (pyStrip q).isEmpty = true
    · simp only [h2, if_true]
      exact ⟨by trivial, by trivial, by trivial, by trivial, by trivial,
        by trivial, Or.inl (by trivial)⟩
    · simp only [h2, if_false]
      cases hc : s.question_cache.lookup (pyLower (pyStrip q)) with
      | some ans =>
        simp only [hc]
        exact ⟨rfl, rfl, rfl, rfl, rfl, rfl, Or.inl rfl⟩
      | none =>
        simp only [hc]
        cases hfb : find_best_matches s (pyStrip q) mm scorer with
        | nil =>
          simp only [hfb]
          exact ⟨rfl, rfl, rfl, rfl, rfl, rfl, Or.inl rfl⟩
        | cons best tail =>
          simp only [hfb]
          exact ⟨rfl, rfl, rfl, rfl, rfl, rfl,
            Or.inr ⟨best.template.answer, rfl, rfl⟩⟩

/-! ### Claim C9 -/

/-- Claim C9: for every question the generated variation set is duplicate-free
and each of the twelve interrogative words contributes exactly one variant:
when the lowered trimmed base starts with the word, the word-stripped
re-trimmed base is in the set and the word-prepended base is NOT; otherwise
the word-prepended base is in the set. -/
theorem C9_variations_per_interrogative (question : Str) :
    (generate_variations question).Nodup ∧
    ∀ w ∈ interrogatives,
      (pyStartsWith w (pyStrip (pyLower question)) = true →
        pyStrip ((pyStrip (pyLower question)).drop w.length)
          ∈ generate_variations question ∧
        (w ++ ' ' :: pyStrip (pyLower question)) ∉ generate_variations question) ∧
      (pyStartsWith w (pyStrip (pyLower question)) = false →
        (w ++ ' ' :: pyStrip (pyLower question)) ∈ generate_variations question) := by
  set base := pyStrip (pyLower question) with hbase
  have hgv : generate_variations question
      = (base :: (punct_suffixes.filterMap (fun suf =>
          if pyEndsWith suf base then some (pyStrip (pyDropRight suf.length base))
          else none)
        ++ interrogatives.map (fun w =>
          if pyStartsWith w base then pyStrip (base.drop w.length)
          else w ++ ' ' :: base))).dedup := rfl
  refine ⟨by rw [hgv]; exact List.nodup_dedup _, ?_⟩
  intro w hw
  constructor
  · intro hstart
    constructor
    · rw [hgv, List.mem_dedup]
      refine List.mem_cons_of_mem _ (List.mem_append_right _ ?_)
      refine List.mem_map.2 ⟨w, hw, ?_⟩
      rw [if_pos hstart]
    · rw [hgv, List.mem_dedup]
      intro hmem
      rcases List.mem_cons.1 hmem with heq | hmem
      · have hlen := congrArg List.length heq
        simp [List.length_append] at hlen
        omega
      · rcases List.mem_append.1 hmem with hmem | hmem
        · rcases List.mem_filterMap.1 hmem with ⟨suf, _, hsome⟩
          by_cases hend : pyEndsWith suf base = true
          · rw [if_pos hend] at hsome
            have heq := Option.some.inj hsome
            have hlen1 : (pyStrip (pyDropRight suf.length base)).length ≤ base.length := by
              calc (pyStrip (pyDropRight suf.length base)).length
                  ≤ (pyDropRight suf.length base).length := pyStrip_length_le _
                _ = min (base.length - suf.length) base.length := by
                    rw [pyDropRight, List.length_take]
                _ ≤ base.length := min_le_right _ _
            rw [heq] at hlen1
            simp [List.length_append] at hlen1
            omega
          · rw [if_neg hend] at hsome; cases hsome
        · rcases List.mem_map.1 hmem with ⟨v, hv, hsome⟩
          by_cases hstart2 : pyStartsWith v base = true
          · rw [if_pos hstart2] at hsome
            have hlen1 : (pyStrip (base.drop v.length)).length ≤ base.length := by
              calc (pyStrip (base.drop v.length)).length
                  ≤ (base.drop v.length).length := pyStrip_length_le _
                _ = base.length - v.length := List.length_drop _ _
                _ ≤ base.length := Nat.sub_le _ _
            rw [hsome] at hlen1
            simp [List.length_append] at hlen1
            omega
          · rw [if_neg hstart2] at hsome
            have hvl : v.length = w.length := by
              have hlen := congrArg List.length hsome
              simp [List.length_append] at hlen
              omega
            have hvw : v = w := (List.append_inj hsome hvl).1
            rw [hvw] at hstart2
            exact hstart2 hstart
  · intro hstart
    rw [hgv, List.mem_dedup]
    refine List.mem_cons_of_mem _ (List.mem_append_right _ ?_)
    refine List.mem_map.2 ⟨w, hw, ?_⟩
    rw [if_neg (by simp [hstart])]

/-- Claim C9, witness: for the question "apa itu ai?" the variation set is
duplicate-free, the "apa"-stripped base "itu ai?" is a variation while
"apa apa itu ai?" is not, and the "what"-prepended base is a variation. -/
theorem C9_witness :
    (generate_variations ("apa itu ai?".data)).Nodup ∧
    pyStrip ((pyStrip (pyLower ("apa itu ai?".data))).drop ("apa".data).length)
      ∈ generate_variations ("apa itu ai?".data) ∧
    ("apa".data ++ ' ' :: pyStrip (pyLower ("apa itu ai?".data)))
      ∉ generate_variations ("apa itu ai?".data) ∧
    ("what".data ++ ' ' :: pyStrip (pyLower ("apa itu ai?".data)))
      ∈ generate_variations ("apa itu ai?".data) := by
  obtain ⟨h1, h2⟩ := C9_variations_per_interrogative ("apa itu ai?".data)
  have ha := (h2 ("apa".data) (by decide)).1 (by decide)
  have hb := (h2 ("what".data) (by decide)).2 (by decide)
  exact ⟨h1, ha.1, ha.2, hb⟩
